import Mathlib

/-!
Shallow embedding of the cloud lifecycle / precipitation / lightning core of
the 3d-weather-sandbox repository (src/main.js, the mesh-based variant).

Numbers are modelled by `ℚ`: every arithmetic constant appearing in the
source (0.2, 0.7, 0.0005, ...) is exactly representable, and all the
comparisons the code performs are order comparisons, so the control flow of
the embedding coincides with the control flow of the JavaScript on the
rational inputs we consider.

The Renderer-side visual state (per-puff structure elements, shader
uniforms, geometry buffers) is out of scope per the specification; the
embedding keeps exactly the per-cloud simulation fields of
`cloudGroup.userData` together with the group position and scale that the
simulation code reads and writes.
-/

/-- Cloud types produced by `CloudSystem.determineCloudType` (main.js:157-166). -/
inductive CloudType where
  | cumulusHumilis
  | cumulusMediocris
  | cumulusCongestus
  | cumulonimbus
  | stratocumulus
deriving DecidableEq, Repr

/-- Lifecycle stages stored in `cloud.userData.stage` (main.js:466,480,514). -/
inductive CloudStage where
  | growing
  | mature
  | dissipating
deriving DecidableEq, Repr

/-- State of one cloud: the simulation fields of `cloudGroup.userData`
(main.js:192-209) plus the group `position` and `scale`. -/
structure Cloud where
  posX : ℚ
  posY : ℚ
  posZ : ℚ
  scaleX : ℚ
  scaleY : ℚ
  scaleZ : ℚ
  speed : ℚ
  rotationSpeed : ℚ
  initialY : ℚ
  floatSpeed : ℚ
  age : ℚ
  maxAge : ℚ
  moisture : ℚ
  growth : ℚ
  stage : CloudStage
  baseScale : ℚ
  precipitating : Bool
  canPrecipitate : Bool
  precipitationThreshold : ℚ
  type : CloudType
  precipitationIntensity : ℚ
deriving DecidableEq, Repr

/-- Type selection `CloudSystem.determineCloudType` (main.js:157-166): an
ordered cascade on the current humidity and one uniform draw `rand`. -/
def determineCloudType (humidity rand : ℚ) : CloudType :=
  if humidity > 75 ∧ rand > 0.7 then .cumulonimbus
  else if humidity > 70 ∧ rand > 0.6 then .cumulusCongestus
  else if humidity > 60 ∧ rand > 0.5 then .cumulusMediocris
  else if rand > 0.7 then .stratocumulus
  else .cumulusHumilis

/-- Random draws consumed by `CloudSystem.createCloud` (main.js:168-219),
each a value of `Math.random()` in `[0,1)`. -/
structure CloudRandoms where
  typeRand : ℚ
  posXr : ℚ
  posYr : ℚ
  posZr : ℚ
  mediocrisRand : ℚ
  speedRand : ℚ
  rotRand : ℚ
  maxAgeRand : ℚ
  moistureRand : ℚ
  growthRand : ℚ
  scaleRand : ℚ
  floatRand : ℚ
deriving DecidableEq, Repr

/-- Cloud creation `CloudSystem.createCloud` (main.js:168-219): initial `userData`, group
position and the initial 0.1 uniform scale. Structure building
(`buildCloudStructure`) only creates Renderer primitives and is out of
scope. -/
def createCloud (humidity : ℚ) (rnd : CloudRandoms) : Cloud :=
  let cloudType := determineCloudType humidity rnd.typeRand
  let canPrecipitate :=
    cloudType = CloudType.cumulonimbus ∨ cloudType = CloudType.cumulusCongestus ∨
      (cloudType = CloudType.cumulusMediocris ∧ rnd.mediocrisRand > 0.7)
  let precipitationThreshold : ℚ :=
    if cloudType = CloudType.cumulonimbus then 0.6
    else if cloudType = CloudType.cumulusCongestus then 0.7
    else 0.8
  { posX := (rnd.posXr - 0.5) * 80
    posY := rnd.posYr * 20 + 5
    posZ := (rnd.posZr - 0.5) * 80
    scaleX := 0.1
    scaleY := 0.1
    scaleZ := 0.1
    speed := 0.02 + rnd.speedRand * 0.03
    rotationSpeed := (rnd.rotRand - 0.5) * 0.002
    initialY := rnd.posYr * 20 + 5
    floatSpeed := 0.3 + rnd.floatRand * 0.2
    age := 0
    maxAge := 300 + rnd.maxAgeRand * 200
    moisture := rnd.moistureRand * 0.5 + 0.3
    growth := 0.5 + rnd.growthRand * 0.5
    stage := .growing
    baseScale := 1 + rnd.scaleRand * 0.8
    precipitating := false
    canPrecipitate := decide canPrecipitate
    precipitationThreshold := precipitationThreshold
    type := cloudType
    precipitationIntensity := 0 }

/-- Lifecycle step `CloudSystem.updateCloud` (main.js:460-541). Takes the ambient state the
method reads from `this` (`this.humidity`, `this.evaporationRate`), the
cloud and `deltaTime`; returns the updated cloud and the removal flag
(`lifeRatio >= 1`). The per-element jitter, vertical element stretch and
material-uniform writes act only on Renderer primitives and are omitted;
they touch none of the fields modelled here. -/
def updateCloud (humidity evaporationRate : ℚ) (cloud : Cloud) (deltaTime : ℚ) :
    Cloud × Bool :=
  let age := cloud.age + deltaTime
  let lifeFrac := age / cloud.maxAge
  let c0 := { cloud with age := age }
  -- growth stages (main.js:465-520)
  let c1 :=
    if lifeFrac < 0.2 then
      let growthScale := (lifeFrac / 0.2) * c0.growth
      { c0 with stage := .growing
                scaleX := c0.baseScale * growthScale
                scaleY := c0.baseScale * growthScale * 0.6
                scaleZ := c0.baseScale * growthScale }
    else if lifeFrac < 0.7 then
      let c0 := { c0 with stage := CloudStage.mature }
      -- check precipitation conditions (main.js:498-512)
      if c0.canPrecipitate ∧ c0.moisture > c0.precipitationThreshold ∧ humidity > 60 then
        let intensity :=
          (c0.moisture - c0.precipitationThreshold) / (1 - c0.precipitationThreshold)
        { c0 with precipitating := true
                  precipitationIntensity := intensity
                  moisture := c0.moisture + deltaTime * 0.0005 -
                    deltaTime * 0.002 * intensity * evaporationRate }
      else
        { c0 with precipitating := false, precipitationIntensity := 0 }
    else
      { c0 with stage := .dissipating, precipitating := false }
  -- environmental moisture exchange (main.js:523-529)
  let c2 :=
    if humidity > 70 then
      { c1 with moisture := min 1 (c1.moisture + deltaTime * 0.002 / evaporationRate) }
    else if humidity < 40 then
      { c1 with moisture := max 0.2 (c1.moisture - deltaTime * 0.001 * evaporationRate) }
    else c1
  (c2, decide (lifeFrac ≥ 1))

/-- Stage as a pure function of the life fraction `age / maxAge`
(the branch structure of main.js:465-520). -/
def stageOf (lifeFrac : ℚ) : CloudStage :=
  if lifeFrac < 0.2 then .growing
  else if lifeFrac < 0.7 then .mature
  else .dissipating

/-- Ambient weather for one `updateCloud` call: the frame `deltaTime`
together with the `CloudSystem` fields `humidity` and `evaporationRate`
current at that frame. -/
structure WeatherStep where
  dt : ℚ
  humidity : ℚ
  evaporationRate : ℚ
deriving DecidableEq, Repr

/-- Run a finite sequence of `updateCloud` calls, keeping the cloud. -/
def runCloud (cloud : Cloud) (steps : List WeatherStep) : Cloud :=
  steps.foldl (fun c s => (updateCloud s.humidity s.evaporationRate c s.dt).fst) cloud

/-- Successive cloud states after each call of a sequence of `updateCloud`
calls. -/
def cloudStates (cloud : Cloud) : List WeatherStep → List Cloud
  | [] => []
  | s :: rest =>
      let c := (updateCloud s.humidity s.evaporationRate cloud s.dt).fst
      c :: cloudStates c rest

/-- The per-frame cloud removal loop of `CloudSystem.update`
(main.js:548-560): every cloud is updated once and exactly those for which
`updateCloud` returned `true` are spliced out, the others kept in order. -/
def systemUpdateClouds (humidity evaporationRate deltaTime : ℚ)
    (clouds : List Cloud) : List Cloud :=
  clouds.foldr
    (fun c acc =>
      let r := updateCloud humidity evaporationRate c deltaTime
      if r.snd then acc else r.fst :: acc) []

/-- Capacity `this.maxParticlesPerCloud` of `PrecipitationSystem` (main.js:572). -/
def maxParticlesPerCloud : ℕ := 500

/-- One raindrop of a per-cloud rain pool: a slot of the `positions` buffer
(three coordinates) together with its `velocities` entry
(main.js:578-579). Only the first `activeParticles` slots are live; the
embedding keeps exactly the live slots as a list, so `activeParticles` is
the list length. -/
structure Raindrop where
  x : ℚ
  y : ℚ
  z : ℚ
  velocity : ℚ
deriving DecidableEq, Repr

/-- Random draws consumed by one spawn attempt (main.js:627-644). -/
structure SpawnDraw where
  gateRand : ℚ
  dxr : ℚ
  dyr : ℚ
  dzr : ℚ
  velRand : ℚ
deriving DecidableEq, Repr

/-- The raindrop written by a successful spawn attempt (main.js:637-641):
`spread = 12 * cloud.scale.x`, position jittered around the cloud's world
position, fall speed `-0.5 - rand*0.4 - intensity*0.3`. -/
def spawnDrop (cloudX cloudY cloudZ spread intensity : ℚ) (d : SpawnDraw) : Raindrop :=
  { x := cloudX + (d.dxr - 0.5) * spread
    y := cloudY - 2 + (d.dyr - 0.5) * 6
    z := cloudZ + (d.dzr - 0.5) * spread
    velocity := -0.5 - d.velRand * 0.4 - intensity * 0.3 }

/-- The spawn loop (main.js:627-645): one attempt per draw, succeeding iff
`activeParticles < maxParticlesPerCloud` and the gate draw is `< 0.4`, in
which case the new drop is written at index `activeParticles` (i.e.
appended) and the count incremented. -/
def spawnPhase (cloudX cloudY cloudZ spread intensity : ℚ)
    (drops : List Raindrop) (draws : List SpawnDraw) : List Raindrop :=
  draws.foldl
    (fun acc d =>
      if acc.length < maxParticlesPerCloud ∧ d.gateRand < 0.4 then
        acc ++ [spawnDrop cloudX cloudY cloudZ spread intensity d]
      else acc)
    drops

/-- Advance one particle: `positions[idx + 1] += velocities[i]`
(main.js:651). -/
def advanceDrop (d : Raindrop) : Raindrop := { d with y := d.y + d.velocity }

/-- The particle update-and-compact pass (main.js:648-664): each live
particle's height is advanced by its fall speed; a particle is copied to
the next write index exactly when its new height is `> 0`, and
`activeParticles` becomes the final write index. -/
def fallCompact (drops : List Raindrop) : List Raindrop :=
  drops.foldl
    (fun acc d =>
      let d := advanceDrop d
      if d.y > 0 then acc ++ [d] else acc)
    []

/-- One full per-frame update of one cloud's rain pool (main.js:618-669):
spawn attempts first, then the update-and-compact pass. -/
def rainPoolUpdate (cloudX cloudY cloudZ spread intensity : ℚ)
    (drops : List Raindrop) (draws : List SpawnDraw) : List Raindrop :=
  fallCompact (spawnPhase cloudX cloudY cloudZ spread intensity drops draws)

/-- One frame of the bolt-aging loop of `LightningSystem.update`
(main.js:801-814): every bolt's age advances by `deltaTime`, and bolts
with age `> 0.2` are spliced out (their drawables released); the backward
splice preserves the order of the survivors. A bolt is modelled by its
age, the only field the removal logic reads. -/
def boltStep (bolts : List ℚ) (deltaTime : ℚ) : List ℚ :=
  (bolts.map (fun a => a + deltaTime)).filter (fun a => decide (a ≤ 0.2))

/-- Repeated `LightningSystem.update` frames with no new triggers. -/
def runBolts (bolts : List ℚ) (dts : List ℚ) : List ℚ :=
  dts.foldl boltStep bolts

/-- Concrete mid-life storm cloud used in scenario checks: a Cumulonimbus
with moisture 0.9 whose age sits in the Mature window of its 400-second
life. -/
def matureStormCloud : Cloud :=
  { posX := 0, posY := 12, posZ := 0, scaleX := 1.2, scaleY := 1, scaleZ := 1.2,
    speed := 0.03, rotationSpeed := 0, initialY := 12, floatSpeed := 0.4,
    age := 100, maxAge := 400, moisture := 0.9, growth := 1,
    stage := .mature, baseScale := 1.5, precipitating := false,
    canPrecipitate := true, precipitationThreshold := 0.6,
    type := .cumulonimbus, precipitationIntensity := 0 }

/-- Concrete late-Mature storm cloud: one Mature `updateCloud` call makes it
precipitate, the next call pushes it past `lifeRatio = 0.7`. -/
def lateMatureCloud : Cloud :=
  { posX := 0, posY := 12, posZ := 0, scaleX := 1.2, scaleY := 1, scaleZ := 1.2,
    speed := 0.03, rotationSpeed := 0, initialY := 12, floatSpeed := 0.4,
    age := 260, maxAge := 400, moisture := 0.9, growth := 1,
    stage := .mature, baseScale := 1.5, precipitating := false,
    canPrecipitate := true, precipitationThreshold := 0.6,
    type := .cumulonimbus, precipitationIntensity := 0 }

/-- Concrete fair-weather cloud (cumulus humilis: cannot precipitate). -/
def humilisCloud : Cloud :=
  { posX := -10, posY := 8, posZ := 4, scaleX := 0.1, scaleY := 0.1,
    scaleZ := 0.1, speed := 0.03, rotationSpeed := 0, initialY := 8,
    floatSpeed := 0.4, age := 0, maxAge := 350, moisture := 0.5, growth := 0.8,
    stage := .growing, baseScale := 1.2, precipitating := false,
    canPrecipitate := false, precipitationThreshold := 0.8,
    type := .cumulusHumilis, precipitationIntensity := 0 }

/-- Random draws that make `createCloud` at humidity 80 produce a
Cumulonimbus (type draw 0.75) with moisture 0.7 and maxAge 400. -/
def stormRandoms : CloudRandoms :=
  ⟨0.75, 0.5, 0.5, 0.5, 0, 0, 0.5, 0.5, 0.8, 0, 0, 0⟩

/-- A freshly created storm cloud. -/
def newbornStormCloud : Cloud := createCloud 80 stormRandoms

/-- Three legitimate `updateCloud` calls: two humid growth frames that pump
moisture to 1, then one long Mature frame at humidity 65 (precipitating,
but outside both environmental-clamp branches). -/
def overdrivenSteps : List WeatherStep :=
  [⟨10, 75, 0.1⟩, ⟨10, 75, 0.1⟩, ⟨240, 65, 3⟩]

/-- The drained storm cloud: the reachable state produced by the three
`overdrivenSteps` calls, whose moisture -8/25 lies below the 0.2 floor of
the dry-air clamp. -/
def drainedStormCloud : Cloud := runCloud newbornStormCloud overdrivenSteps


/-! Helper lemmas: fields `updateCloud` never writes, and the fields it
always writes the same way. -/

lemma updateCloud_fst_age (humidity evap : ℚ) (c : Cloud) (dt : ℚ) :
    ((updateCloud humidity evap c dt).fst).age = c.age + dt := by
  unfold updateCloud; dsimp only; split_ifs <;> rfl

lemma updateCloud_fst_maxAge (humidity evap : ℚ) (c : Cloud) (dt : ℚ) :
    ((updateCloud humidity evap c dt).fst).maxAge = c.maxAge := by
  unfold updateCloud; dsimp only; split_ifs <;> rfl

lemma updateCloud_fst_pos (humidity evap : ℚ) (c : Cloud) (dt : ℚ) :
    ((updateCloud humidity evap c dt).fst).posX = c.posX
    ∧ ((updateCloud humidity evap c dt).fst).posY = c.posY
    ∧ ((updateCloud humidity evap c dt).fst).posZ = c.posZ := by
  unfold updateCloud; dsimp only; split_ifs <;> exact ⟨rfl, rfl, rfl⟩

lemma updateCloud_fst_canPrecipitate (humidity evap : ℚ) (c : Cloud) (dt : ℚ) :
    ((updateCloud humidity evap c dt).fst).canPrecipitate = c.canPrecipitate := by
  unfold updateCloud; dsimp only; split_ifs <;> rfl

lemma updateCloud_fst_threshold (humidity evap : ℚ) (c : Cloud) (dt : ℚ) :
    ((updateCloud humidity evap c dt).fst).precipitationThreshold
      = c.precipitationThreshold := by
  unfold updateCloud; dsimp only; split_ifs <;> rfl

lemma updateCloud_fst_stage (humidity evap : ℚ) (c : Cloud) (dt : ℚ) :
    ((updateCloud humidity evap c dt).fst).stage
      = stageOf ((c.age + dt) / c.maxAge) := by
  unfold updateCloud stageOf; dsimp only; split_ifs <;> try rfl

lemma updateCloud_snd_eq (humidity evap : ℚ) (c : Cloud) (dt : ℚ) :
    (updateCloud humidity evap c dt).snd
      = decide ((c.age + dt) / c.maxAge ≥ 1) := by
  unfold updateCloud; dsimp only

/-! Behaviour of the three lifecycle branches on the precipitation fields. -/

lemma updateCloud_growing_precip (humidity evap : ℚ) (c : Cloud) (dt : ℚ)
    (h : (c.age + dt) / c.maxAge < 0.2) :
    ((updateCloud humidity evap c dt).fst).precipitating = c.precipitating
    ∧ ((updateCloud humidity evap c dt).fst).precipitationIntensity
        = c.precipitationIntensity := by
  unfold updateCloud; dsimp only
  rw [if_pos h]
  split_ifs <;> exact ⟨rfl, rfl⟩

lemma updateCloud_mature_gate_true (humidity evap : ℚ) (c : Cloud) (dt : ℚ)
    (h1 : ¬ (c.age + dt) / c.maxAge < 0.2) (h2 : (c.age + dt) / c.maxAge < 0.7)
    (hg : c.canPrecipitate = true ∧ c.moisture > c.precipitationThreshold
            ∧ humidity > 60) :
    ((updateCloud humidity evap c dt).fst).precipitating = true
    ∧ ((updateCloud humidity evap c dt).fst).precipitationIntensity
        = (c.moisture - c.precipitationThreshold)
            / (1 - c.precipitationThreshold) := by
  unfold updateCloud; dsimp only
  rw [if_neg h1, if_pos h2, if_pos hg]
  split_ifs <;> exact ⟨rfl, rfl⟩

lemma updateCloud_mature_gate_false (humidity evap : ℚ) (c : Cloud) (dt : ℚ)
    (h1 : ¬ (c.age + dt) / c.maxAge < 0.2) (h2 : (c.age + dt) / c.maxAge < 0.7)
    (hg : ¬ (c.canPrecipitate = true ∧ c.moisture > c.precipitationThreshold
              ∧ humidity > 60)) :
    ((updateCloud humidity evap c dt).fst).precipitating = false
    ∧ ((updateCloud humidity evap c dt).fst).precipitationIntensity = 0 := by
  unfold updateCloud; dsimp only
  rw [if_neg h1, if_pos h2, if_neg hg]
  split_ifs <;> exact ⟨rfl, rfl⟩

lemma updateCloud_dissipating_precip (humidity evap : ℚ) (c : Cloud) (dt : ℚ)
    (h : ¬ (c.age + dt) / c.maxAge < 0.7) :
    ((updateCloud humidity evap c dt).fst).precipitating = false
    ∧ ((updateCloud humidity evap c dt).fst).precipitationIntensity
        = c.precipitationIntensity := by
  have h1 : ¬ (c.age + dt) / c.maxAge < 0.2 := fun hlt => h (hlt.trans (by norm_num))
  unfold updateCloud; dsimp only
  rw [if_neg h1, if_neg h]
  split_ifs <;> exact ⟨rfl, rfl⟩

/-- C2: in the Mature stage (`0.2 ≤ lifeRatio < 0.7` after `dt` is added),
`updateCloud` sets `precipitating` to the gate
`canPrecipitate AND moisture > precipitationThreshold AND humidity > 60`
(evaluated on the pre-call moisture), and when the gate holds it sets
`precipitationIntensity = (moisture - threshold) / (1 - threshold)`. -/
theorem updateCloud_mature_precipitation_gate (humidity evap dt : ℚ) (c : Cloud)
    (h1 : 0.2 ≤ (c.age + dt) / c.maxAge) (h2 : (c.age + dt) / c.maxAge < 0.7) :
    ((updateCloud humidity evap c dt).fst).precipitating
      = (c.canPrecipitate && decide (c.moisture > c.precipitationThreshold)
          && decide (humidity > 60))
    ∧ (((updateCloud humidity evap c dt).fst).precipitating = true →
        ((updateCloud humidity evap c dt).fst).precipitationIntensity
          = (c.moisture - c.precipitationThreshold)
              / (1 - c.precipitationThreshold)) := by
  by_cases hg : c.canPrecipitate = true ∧ c.moisture > c.precipitationThreshold
      ∧ humidity > 60
  · obtain ⟨hp, hi⟩ := updateCloud_mature_gate_true humidity evap c dt
      (not_lt.mpr h1) h2 hg
    obtain ⟨ha, hb, hc⟩ := hg
    exact ⟨by rw [hp, ha]; simp [hb, hc], fun _ => hi⟩
  · obtain ⟨hp, hi⟩ := updateCloud_mature_gate_false humidity evap c dt
      (not_lt.mpr h1) h2 hg
    refine ⟨?_, fun hpt => absurd (hp ▸ hpt) (by simp)⟩
    rw [hp]; symm
    rw [Bool.eq_false_iff]
    intro hcontra
    exact hg (by simpa [Bool.and_eq_true, decide_eq_true_eq, and_assoc] using hcontra)

/-- Witness for C2: the spec scenario. A Cumulonimbus cloud (threshold 0.6)
with moisture 0.9, ambient humidity 80, evaporation rate 1.0 and age in
the Mature window precipitates with intensity (0.9-0.6)/(1-0.6) = 0.75. -/
theorem updateCloud_mature_precipitation_gate_witness :
    ((updateCloud 80 1 matureStormCloud 0).fst).precipitating = true
    ∧ ((updateCloud 80 1 matureStormCloud 0).fst).precipitationIntensity
        = 0.75 := by
  have h := updateCloud_mature_precipitation_gate 80 1 0 matureStormCloud
    (by norm_num [matureStormCloud]) (by norm_num [matureStormCloud])
  have hgate : (matureStormCloud.canPrecipitate
      && decide (matureStormCloud.moisture > matureStormCloud.precipitationThreshold)
      && decide ((80 : ℚ) > 60)) = true := by
    norm_num [matureStormCloud, Bool.and_eq_true, decide_eq_true_eq]
  refine ⟨h.1.trans hgate, ?_⟩
  rw [h.2 (h.1.trans hgate)]; norm_num [matureStormCloud]

/-- C3 (amended): once a cloud is Dissipating (`lifeRatio ≥ 0.7` after `dt`
is added), `updateCloud` forces `precipitating` off, but it leaves
`precipitationIntensity` at its previous value: the dissipating branch
never resets the intensity (only the Mature-stage non-precipitating branch
does). -/
theorem updateCloud_dissipating_forces_off (humidity evap dt : ℚ) (c : Cloud)
    (h : 0.7 ≤ (c.age + dt) / c.maxAge) :
    ((updateCloud humidity evap c dt).fst).precipitating = false
    ∧ ((updateCloud humidity evap c dt).fst).precipitationIntensity
        = c.precipitationIntensity :=
  updateCloud_dissipating_precip humidity evap c dt (not_lt.mpr h)

/-- Witness for C3's amended theorem at a concrete dissipating call. -/
theorem updateCloud_dissipating_forces_off_witness :
    ((updateCloud 80 1 matureStormCloud 200).fst).precipitating = false
    ∧ ((updateCloud 80 1 matureStormCloud 200).fst).precipitationIntensity
        = matureStormCloud.precipitationIntensity :=
  updateCloud_dissipating_forces_off 80 1 200 matureStormCloud
    (by norm_num [matureStormCloud])

/-- Counterexample to C3 as stated: a cloud that precipitated with
intensity 0.75 in the Mature stage and then crosses into Dissipating has
`precipitating = false` after the dissipating call, but its
`precipitationIntensity` is still 0.75, not 0. -/
theorem updateCloud_dissipating_intensity_cex :
    ((updateCloud 65 1 lateMatureCloud 10).fst).precipitating = true
    ∧ ((updateCloud 65 1 lateMatureCloud 10).fst).precipitationIntensity = 0.75
    ∧ ((updateCloud 65 1 ((updateCloud 65 1 lateMatureCloud 10).fst)
          20).fst).precipitating = false
    ∧ ((updateCloud 65 1 ((updateCloud 65 1 lateMatureCloud 10).fst)
          20).fst).precipitationIntensity ≠ 0 := by
  have h1 : (updateCloud 65 1 lateMatureCloud 10).fst =
      { posX := 0, posY := 12, posZ := 0, scaleX := 1.2, scaleY := 1,
        scaleZ := 1.2, speed := 0.03, rotationSpeed := 0, initialY := 12,
        floatSpeed := 0.4, age := 270, maxAge := 400, moisture := 0.89,
        growth := 1, stage := .mature, baseScale := 1.5, precipitating := true,
        canPrecipitate := true, precipitationThreshold := 0.6,
        type := .cumulonimbus, precipitationIntensity := 0.75 } := by
    norm_num [updateCloud, lateMatureCloud]
  rw [h1]
  norm_num [updateCloud]

/-- C5: `determineCloudType` is the ordered first-match-wins cascade on
(humidity, uniform draw): humidity>75 & rand>0.7 → Cumulonimbus;
humidity>70 & rand>0.6 → CumulusCongestus; humidity>60 & rand>0.5 →
CumulusMediocris; rand>0.7 → Stratocumulus; otherwise CumulusHumilis.
Includes the spec's two pinned instances. -/
theorem determineCloudType_cascade :
    (∀ h r : ℚ, h > 75 → r > 0.7 →
      determineCloudType h r = CloudType.cumulonimbus)
    ∧ (∀ h r : ℚ, ¬(h > 75 ∧ r > 0.7) → h > 70 → r > 0.6 →
        determineCloudType h r = CloudType.cumulusCongestus)
    ∧ (∀ h r : ℚ, ¬(h > 75 ∧ r > 0.7) → ¬(h > 70 ∧ r > 0.6) → h > 60 → r > 0.5 →
        determineCloudType h r = CloudType.cumulusMediocris)
    ∧ (∀ h r : ℚ, ¬(h > 75 ∧ r > 0.7) → ¬(h > 70 ∧ r > 0.6) → ¬(h > 60 ∧ r > 0.5) →
        r > 0.7 → determineCloudType h r = CloudType.stratocumulus)
    ∧ (∀ h r : ℚ, ¬(h > 75 ∧ r > 0.7) → ¬(h > 70 ∧ r > 0.6) → ¬(h > 60 ∧ r > 0.5) →
        ¬(r > 0.7) → determineCloudType h r = CloudType.cumulusHumilis)
    ∧ determineCloudType 80 0.75 = CloudType.cumulonimbus
    ∧ determineCloudType 10 0.5 = CloudType.cumulusHumilis := by
  refine ⟨fun h r hh hr => ?_, fun h r h1 hh hr => ?_, fun h r h1 h2 hh hr => ?_,
    fun h r h1 h2 h3 hr => ?_, fun h r h1 h2 h3 h4 => ?_, ?_, ?_⟩
  · unfold determineCloudType; rw [if_pos ⟨hh, hr⟩]
  · unfold determineCloudType; rw [if_neg h1, if_pos ⟨hh, hr⟩]
  · unfold determineCloudType; rw [if_neg h1, if_neg h2, if_pos ⟨hh, hr⟩]
  · unfold determineCloudType; rw [if_neg h1, if_neg h2, if_neg h3, if_pos hr]
  · unfold determineCloudType; rw [if_neg h1, if_neg h2, if_neg h3, if_neg h4]
  · unfold determineCloudType; norm_num
  · unfold determineCloudType; norm_num

/-- Witness for C5: both pinned instances obtained by applying the cascade
rules at concrete inputs. -/
theorem determineCloudType_cascade_witness :
    determineCloudType 80 0.75 = CloudType.cumulonimbus
    ∧ determineCloudType 10 0.5 = CloudType.cumulusHumilis :=
  ⟨determineCloudType_cascade.1 80 0.75 (by norm_num) (by norm_num),
   determineCloudType_cascade.2.2.2.2.2.2⟩

/-- The backward splice loop of `CloudSystem.update` equals an
order-preserving filter of the per-cloud update results. -/
lemma systemUpdateClouds_eq_filter (humidity evap dt : ℚ) (clouds : List Cloud) :
    systemUpdateClouds humidity evap dt clouds
      = ((clouds.map (fun c => updateCloud humidity evap c dt)).filter
          (fun r => !r.snd)).map Prod.fst := by
  induction clouds with
  | nil => rfl
  | cons c cs ih =>
      simp only [systemUpdateClouds, List.foldr_cons, List.map_cons,
        List.filter_cons] at *
      cases hr : (updateCloud humidity evap c dt).snd <;>
        simp [hr, ih]

/-- C6: `updateCloud` signals removal exactly when the new age reaches
`maxAge` — equivalently `lifeRatio ≥ 1`, with the boundary exactly at
`lifeRatio = 1` — and the per-frame `CloudSystem.update` keeps, in order,
exactly the updated clouds whose call returned `false`. -/
theorem cloud_removal_iff (humidity evap dt : ℚ) (clouds : List Cloud) (c : Cloud)
    (hmax : 0 < c.maxAge) :
    ((updateCloud humidity evap c dt).snd = true ↔ 1 ≤ (c.age + dt) / c.maxAge)
    ∧ ((updateCloud humidity evap c dt).snd = true ↔ c.maxAge ≤ c.age + dt)
    ∧ systemUpdateClouds humidity evap dt clouds
        = ((clouds.map (fun c => updateCloud humidity evap c dt)).filter
            (fun r => !r.snd)).map Prod.fst := by
  refine ⟨?_, ?_, systemUpdateClouds_eq_filter humidity evap dt clouds⟩
  · rw [updateCloud_snd_eq]
    simp only [ge_iff_le, decide_eq_true_eq]
  · rw [updateCloud_snd_eq]
    simp only [ge_iff_le, decide_eq_true_eq]
    exact one_le_div hmax

/-- Witness for C6 at the boundary: `lateMatureCloud` has age 260 and
maxAge 400, so a call with dt = 140 lands exactly on `lifeRatio = 1` and is
removed, while dt = 139 is not. -/
theorem cloud_removal_iff_witness :
    (updateCloud 65 1 lateMatureCloud 140).snd = true
    ∧ (updateCloud 65 1 lateMatureCloud 139).snd ≠ true := by
  constructor
  · exact (cloud_removal_iff 65 1 140 [] lateMatureCloud
      (by norm_num [lateMatureCloud])).2.1.mpr (by norm_num [lateMatureCloud])
  · intro hc
    have := (cloud_removal_iff 65 1 139 [] lateMatureCloud
      (by norm_num [lateMatureCloud])).2.1.mp hc
    norm_num [lateMatureCloud] at this

/-- The write-index compaction loop with an arbitrary prefix already
written equals that prefix followed by the order-preserving filter of the
advanced particles. -/
lemma fallCompact_foldl_eq (l acc : List Raindrop) :
    l.foldl
        (fun acc d =>
          let d := advanceDrop d
          if d.y > 0 then acc ++ [d] else acc) acc
      = acc ++ (l.map advanceDrop).filter (fun d => decide (d.y > 0)) := by
  induction l generalizing acc with
  | nil => simp
  | cons d ds ih =>
      simp only [List.foldl_cons, List.map_cons, List.filter_cons]
      by_cases h : (advanceDrop d).y > 0
      · simp [h, ih, List.append_assoc]
      · simp [h, ih]

/-- The compaction pass is the stable filter keeping exactly the advanced
particles with height above 0. -/
lemma fallCompact_eq (drops : List Raindrop) :
    fallCompact drops
      = (drops.map advanceDrop).filter (fun d => decide (d.y > 0)) := by
  simpa using fallCompact_foldl_eq drops []

/-- C4 (amended): after every active particle's height advances by its fall
speed, exactly the particles whose new height is at most 0 are compacted
out — the survivors are exactly those with height above 0 — the compaction
is stable (the result is an order-preserving sublist of the advanced
particles), and the active count becomes the number of survivors. -/
theorem fallCompact_stable_filter (drops : List Raindrop) :
    fallCompact drops
      = (drops.map advanceDrop).filter (fun d => decide (d.y > 0))
    ∧ List.Sublist (fallCompact drops) (drops.map advanceDrop)
    ∧ (fallCompact drops).length
        = ((drops.map advanceDrop).filter (fun d => decide (d.y > 0))).length := by
  refine ⟨fallCompact_eq drops, ?_, by rw [fallCompact_eq]⟩
  rw [fallCompact_eq]
  exact List.filter_sublist _

/-- Counterexample to C4 as stated: a particle whose height rises above 0
after the advance (here from 10 to 9 > 0) is kept by the compaction pass,
not compacted out, while a particle whose height drops to 0 or below
(here 0.3 to -0.7) is the one removed. -/
theorem fallCompact_survivor_cex :
    (advanceDrop ⟨0, 10, 0, -1⟩).y > 0
    ∧ fallCompact [⟨0, 10, 0, -1⟩] = [⟨0, 9, 0, -1⟩]
    ∧ fallCompact [⟨0, 0.3, 0, -1⟩] = [] := by
  refine ⟨by norm_num [advanceDrop], ?_, ?_⟩ <;>
    norm_num [fallCompact, advanceDrop]

/-- Spawn attempts never grow a pool beyond `maxParticlesPerCloud`. -/
lemma spawnPhase_length_le (cloudX cloudY cloudZ spread intensity : ℚ)
    (drops : List Raindrop) (draws : List SpawnDraw)
    (h : drops.length ≤ maxParticlesPerCloud) :
    (spawnPhase cloudX cloudY cloudZ spread intensity drops draws).length
      ≤ maxParticlesPerCloud := by
  induction draws generalizing drops with
  | nil => simpa [spawnPhase]
  | cons d ds ih =>
      simp only [spawnPhase, List.foldl_cons] at *
      by_cases hc : drops.length < maxParticlesPerCloud ∧ d.gateRand < 0.4
      · rw [if_pos hc]
        exact ih _ (by simp only [List.length_append, List.length_cons,
          List.length_nil]; omega)
      · rw [if_neg hc]
        exact ih _ h

/-- A pool already at capacity silently rejects every spawn attempt. -/
lemma spawnPhase_at_capacity (cloudX cloudY cloudZ spread intensity : ℚ)
    (drops : List Raindrop) (draws : List SpawnDraw)
    (h : drops.length = maxParticlesPerCloud) :
    spawnPhase cloudX cloudY cloudZ spread intensity drops draws = drops := by
  induction draws with
  | nil => rfl
  | cons d ds ih =>
      simp only [spawnPhase, List.foldl_cons] at *
      rw [if_neg (by rw [h]; simp)]
      exact ih

/-- C7: a full per-frame rain-pool update never leaves more than
`maxParticlesPerCloud` (500) active particles, regardless of the spawn
attempts; and a pool already holding 500 particles is left exactly
unchanged by the whole spawn loop. -/
theorem rainPool_capacity (cloudX cloudY cloudZ spread intensity : ℚ)
    (drops : List Raindrop) (draws : List SpawnDraw)
    (h : drops.length ≤ maxParticlesPerCloud) :
    (rainPoolUpdate cloudX cloudY cloudZ spread intensity drops draws).length
        ≤ maxParticlesPerCloud
    ∧ (drops.length = maxParticlesPerCloud →
        spawnPhase cloudX cloudY cloudZ spread intensity drops draws = drops) := by
  refine ⟨?_, spawnPhase_at_capacity cloudX cloudY cloudZ spread intensity drops draws⟩
  unfold rainPoolUpdate
  rw [fallCompact_eq]
  refine le_trans (le_trans (List.length_filter_le _ _) (le_of_eq (List.length_map _ _)))
    (spawnPhase_length_le cloudX cloudY cloudZ spread intensity drops draws h)

/-- Witness for C7: a pool of exactly 500 particles receives a spawn
attempt whose gate draw would succeed; the pool stays at 500 and the spawn
loop leaves it untouched. -/
theorem rainPool_capacity_witness :
    (rainPoolUpdate 0 10 0 12 1 (List.replicate 500 ⟨0, 5, 0, -1⟩)
        [⟨0.1, 0.5, 0.5, 0.5, 0.5⟩]).length ≤ maxParticlesPerCloud
    ∧ spawnPhase 0 10 0 12 1 (List.replicate 500 ⟨0, 5, 0, -1⟩)
        [⟨0.1, 0.5, 0.5, 0.5, 0.5⟩] = List.replicate 500 ⟨0, 5, 0, -1⟩ := by
  have hlen : (List.replicate 500 (⟨0, 5, 0, -1⟩ : Raindrop)).length
      = maxParticlesPerCloud := by
    rw [List.length_replicate]; rfl
  have h := rainPool_capacity 0 10 0 12 1 (List.replicate 500 ⟨0, 5, 0, -1⟩)
    [⟨0.1, 0.5, 0.5, 0.5, 0.5⟩] (le_of_eq hlen)
  exact ⟨h.1, h.2 hlen⟩

/-- Every survivor of a sequence of bolt-aging frames is an initial bolt
aged by the total elapsed time. -/
lemma runBolts_mem_sum :
    ∀ (dts : List ℚ) (bolts : List ℚ) (b : ℚ), b ∈ runBolts bolts dts →
      ∃ a ∈ bolts, b = a + dts.sum := by
  intro dts
  induction dts with
  | nil => exact fun bolts b hb => ⟨b, hb, by simp⟩
  | cons dt ds ih =>
      intro bolts b hb
      have hb' : b ∈ runBolts (boltStep bolts dt) ds := hb
      obtain ⟨a', ha', rfl⟩ := ih (boltStep bolts dt) b hb'
      have : a' ∈ (bolts.map (fun a => a + dt)).filter
          (fun a => decide (a ≤ 0.2)) := ha'
      rw [List.mem_filter] at this
      obtain ⟨a, ha, rfl⟩ := List.mem_map.mp this.1
      exact ⟨a, ha, by simp [List.sum_cons]; ring⟩

/-- After at least one aging frame, every surviving bolt has age at most
0.2. -/
lemma runBolts_mem_le :
    ∀ (dts : List ℚ), dts ≠ [] → ∀ (bolts : List ℚ) (b : ℚ),
      b ∈ runBolts bolts dts → b ≤ 0.2 := by
  intro dts
  induction dts with
  | nil => exact fun h => absurd rfl h
  | cons dt ds ih =>
      intro _ bolts b hb
      rcases eq_or_ne ds [] with rfl | hne
      · have : b ∈ boltStep bolts dt := hb
        rw [boltStep, List.mem_filter] at this
        simpa using this.2
      · exact ih hne (boltStep bolts dt) b hb

/-- C9: any bolt whose age exceeds 0.2 seconds is gone after the next
aging frame, and after frames totalling more than 0.2 seconds with no new
triggers the active bolt list is empty, for any initial bolt ages. -/
theorem lightning_bolts_cleared (bolts dts : List ℚ)
    (hb : ∀ a ∈ bolts, 0 ≤ a) (hd : ∀ d ∈ dts, 0 ≤ d)
    (hsum : 0.2 < dts.sum) :
    runBolts bolts dts = []
    ∧ ∀ a ∈ bolts, ∀ dt : ℚ, 0 ≤ dt → 0.2 < a → a + dt ∉ boltStep bolts dt := by
  constructor
  · rw [List.eq_nil_iff_forall_not_mem]
    intro b hbmem
    obtain ⟨a, ha, rfl⟩ := runBolts_mem_sum dts bolts b hbmem
    have hne : dts ≠ [] := by
      rintro rfl
      rw [List.sum_nil] at hsum
      exact absurd hsum (by norm_num)
    have hle := runBolts_mem_le dts hne bolts _ hbmem
    have h0 := hb a ha
    linarith
  · intro a _ dt hdt ha hmem
    rw [boltStep, List.mem_filter] at hmem
    have : a + dt ≤ 0.2 := by simpa using hmem.2
    linarith

/-- Witness for C9: two live bolts aged by frames totalling 0.25s are both
removed. -/
theorem lightning_bolts_cleared_witness :
    runBolts [0, 0.15] [0.1, 0.15] = [] := by
  refine (lightning_bolts_cleared [0, 0.15] [0.1, 0.15] ?_ ?_ ?_).1
  · intro a ha
    rcases List.mem_cons.mp ha with rfl | ha
    · norm_num
    · rcases List.mem_cons.mp ha with rfl | ha
      · norm_num
      · simp at ha
  · intro d hd
    rcases List.mem_cons.mp hd with rfl | hd
    · norm_num
    · rcases List.mem_cons.mp hd with rfl | hd
      · norm_num
      · simp at hd
  · norm_num

/-- For a cloud that cannot precipitate, the lifecycle branch never touches
moisture, so the post-call moisture is exactly the environmental-exchange
value. -/
lemma updateCloud_moisture_of_not_canPrecipitate (humidity evap : ℚ) (c : Cloud)
    (dt : ℚ) (hc : c.canPrecipitate = false) :
    ((updateCloud humidity evap c dt).fst).moisture
      = (if humidity > 70 then min 1 (c.moisture + dt * 0.002 / evap)
         else if humidity < 40 then max 0.2 (c.moisture - dt * 0.001 * evap)
         else c.moisture) := by
  unfold updateCloud; dsimp only
  split_ifs with h1 h2 h3 <;> simp_all

/-- One `updateCloud` call keeps the moisture of a non-precipitable cloud
inside `[0, 1]` (the two environmental branches clamp at 1 and 0.2). -/
lemma updateCloud_moisture_no_precip (humidity evap dt : ℚ) (c : Cloud)
    (hc : c.canPrecipitate = false) (hdt : 0 ≤ dt) (he : 0 < evap)
    (h0 : 0 ≤ c.moisture) (h1 : c.moisture ≤ 1) :
    ((updateCloud humidity evap c dt).fst).canPrecipitate = false
    ∧ 0 ≤ ((updateCloud humidity evap c dt).fst).moisture
    ∧ ((updateCloud humidity evap c dt).fst).moisture ≤ 1 := by
  refine ⟨(updateCloud_fst_canPrecipitate humidity evap c dt).trans hc, ?_, ?_⟩ <;>
    rw [updateCloud_moisture_of_not_canPrecipitate humidity evap c dt hc] <;>
    split_ifs with ha hb
  · have : (0 : ℚ) ≤ dt * 0.002 / evap := by positivity
    exact le_min (by norm_num) (by linarith)
  · have : (0 : ℚ) ≤ 0.2 := by norm_num
    exact this.trans (le_max_left _ _)
  · exact h0
  · exact min_le_left _ _
  · have : (0 : ℚ) ≤ dt * 0.001 * evap := by positivity
    exact max_le (by norm_num) (by linarith)
  · exact h1

/-- C1 (amended): for every cloud that cannot precipitate and every finite
sequence of `updateCloud` calls with nonnegative `dt` and positive
evaporation rate, `0 ≤ moisture ≤ 1` holds after every call. (For
precipitating clouds the Mature-stage moisture update is unclamped and can
leave `[0, 1]`; see the counterexample.) -/
theorem moisture_bounds_without_precipitation (c : Cloud)
    (steps : List WeatherStep) (hc : c.canPrecipitate = false)
    (h0 : 0 ≤ c.moisture) (h1 : c.moisture ≤ 1)
    (hsteps : ∀ s ∈ steps, 0 ≤ s.dt ∧ 0 < s.evaporationRate) :
    ∀ c' ∈ cloudStates c steps, 0 ≤ c'.moisture ∧ c'.moisture ≤ 1 := by
  induction steps generalizing c with
  | nil => intro c' hc'; simp [cloudStates] at hc'
  | cons s ss ih =>
      intro c' hc'
      obtain ⟨hdt, he⟩ := hsteps s (List.mem_cons_self s ss)
      have hstep := updateCloud_moisture_no_precip s.humidity s.evaporationRate
        s.dt c hc hdt he h0 h1
      simp only [cloudStates, List.mem_cons] at hc'
      rcases hc' with rfl | hc'
      · exact ⟨hstep.2.1, hstep.2.2⟩
      · exact ih _ hstep.1 hstep.2.1 hstep.2.2
          (fun s' hs' => hsteps s' (List.mem_cons_of_mem s hs')) c' hc'

/-- Witness for C1's amended theorem at one concrete call. -/
theorem moisture_bounds_without_precipitation_witness :
    0 ≤ ((updateCloud 80 1 humilisCloud 10).fst).moisture
    ∧ ((updateCloud 80 1 humilisCloud 10).fst).moisture ≤ 1 := by
  have h := moisture_bounds_without_precipitation humilisCloud
    [⟨10, 80, 1⟩] rfl (by norm_num [humilisCloud]) (by norm_num [humilisCloud])
    (by intro s hs; rcases List.mem_cons.mp hs with rfl | hs
        · exact ⟨by norm_num, by norm_num⟩
        · simp at hs)
  exact h _ (by simp [cloudStates])

/-- Evaluation of the three calls: the unclamped Mature-stage precipitation
update drives moisture to -8/25. -/
lemma runCloud_overdriven_eq :
    runCloud newbornStormCloud overdrivenSteps =
      { posX := 0, posY := 15, posZ := 0, scaleX := 1/8, scaleY := 3/40,
        scaleZ := 1/8, speed := 1/50, rotationSpeed := 0, initialY := 15,
        floatSpeed := 3/10, age := 260, maxAge := 400, moisture := -8/25,
        growth := 1/2, stage := .mature, baseScale := 1,
        precipitating := true, canPrecipitate := true,
        precipitationThreshold := 3/5, type := .cumulonimbus,
        precipitationIntensity := 1 } := by
  have e0 : newbornStormCloud =
      { posX := 0, posY := 15, posZ := 0, scaleX := 1/10, scaleY := 1/10,
        scaleZ := 1/10, speed := 1/50, rotationSpeed := 0, initialY := 15,
        floatSpeed := 3/10, age := 0, maxAge := 400, moisture := 7/10,
        growth := 1/2, stage := .growing, baseScale := 1,
        precipitating := false, canPrecipitate := true,
        precipitationThreshold := 3/5, type := .cumulonimbus,
        precipitationIntensity := 0 } := by
    norm_num [newbornStormCloud, createCloud, stormRandoms, determineCloudType]
  have e1 : (updateCloud 75 0.1
      ({ posX := 0, posY := 15, posZ := 0, scaleX := 1/10, scaleY := 1/10,
         scaleZ := 1/10, speed := 1/50, rotationSpeed := 0, initialY := 15,
         floatSpeed := 3/10, age := 0, maxAge := 400, moisture := 7/10,
         growth := 1/2, stage := .growing, baseScale := 1,
         precipitating := false, canPrecipitate := true,
         precipitationThreshold := 3/5, type := .cumulonimbus,
         precipitationIntensity := 0 } : Cloud) 10).fst =
      { posX := 0, posY := 15, posZ := 0, scaleX := 1/16, scaleY := 3/80,
        scaleZ := 1/16, speed := 1/50, rotationSpeed := 0, initialY := 15,
        floatSpeed := 3/10, age := 10, maxAge := 400, moisture := 9/10,
        growth := 1/2, stage := .growing, baseScale := 1,
        precipitating := false, canPrecipitate := true,
        precipitationThreshold := 3/5, type := .cumulonimbus,
        precipitationIntensity := 0 } := by
    norm_num [updateCloud, min_def]
  have e2 : (updateCloud 75 0.1
      ({ posX := 0, posY := 15, posZ := 0, scaleX := 1/16, scaleY := 3/80,
         scaleZ := 1/16, speed := 1/50, rotationSpeed := 0, initialY := 15,
         floatSpeed := 3/10, age := 10, maxAge := 400, moisture := 9/10,
         growth := 1/2, stage := .growing, baseScale := 1,
         precipitating := false, canPrecipitate := true,
         precipitationThreshold := 3/5, type := .cumulonimbus,
         precipitationIntensity := 0 } : Cloud) 10).fst =
      { posX := 0, posY := 15, posZ := 0, scaleX := 1/8, scaleY := 3/40,
        scaleZ := 1/8, speed := 1/50, rotationSpeed := 0, initialY := 15,
        floatSpeed := 3/10, age := 20, maxAge := 400, moisture := 1,
        growth := 1/2, stage := .growing, baseScale := 1,
        precipitating := false, canPrecipitate := true,
        precipitationThreshold := 3/5, type := .cumulonimbus,
        precipitationIntensity := 0 } := by
    norm_num [updateCloud, min_def]
  have e3 : (updateCloud 65 3
      ({ posX := 0, posY := 15, posZ := 0, scaleX := 1/8, scaleY := 3/40,
         scaleZ := 1/8, speed := 1/50, rotationSpeed := 0, initialY := 15,
         floatSpeed := 3/10, age := 20, maxAge := 400, moisture := 1,
         growth := 1/2, stage := .growing, baseScale := 1,
         precipitating := false, canPrecipitate := true,
         precipitationThreshold := 3/5, type := .cumulonimbus,
         precipitationIntensity := 0 } : Cloud) 240).fst =
      { posX := 0, posY := 15, posZ := 0, scaleX := 1/8, scaleY := 3/40,
        scaleZ := 1/8, speed := 1/50, rotationSpeed := 0, initialY := 15,
        floatSpeed := 3/10, age := 260, maxAge := 400, moisture := -8/25,
        growth := 1/2, stage := .mature, baseScale := 1,
        precipitating := true, canPrecipitate := true,
        precipitationThreshold := 3/5, type := .cumulonimbus,
        precipitationIntensity := 1 } := by
    norm_num [updateCloud, min_def]
  show runCloud newbornStormCloud [⟨10, 75, 0.1⟩, ⟨10, 75, 0.1⟩, ⟨240, 65, 3⟩] = _
  simp only [runCloud, List.foldl_cons, List.foldl_nil]
  rw [e0, e1, e2, e3]

/-- Counterexample to C1 as stated: a factory-created Cumulonimbus, run
through three `updateCloud` calls with nonnegative dt values (the last a
large Mature-stage frame at humidity 65), ends with moisture -8/25 < 0. -/
theorem moisture_bounds_cex :
    (∀ s ∈ overdrivenSteps, 0 ≤ s.dt)
    ∧ (runCloud newbornStormCloud overdrivenSteps).moisture < 0 := by
  constructor
  · intro s hs
    rcases List.mem_cons.mp hs with rfl | hs
    · norm_num
    · rcases List.mem_cons.mp hs with rfl | hs
      · norm_num
      · rcases List.mem_cons.mp hs with rfl | hs
        · norm_num
        · simp at hs
  · rw [runCloud_overdriven_eq]
    norm_num

/-- A dt = 0 `updateCloud` call fixes moisture (given the environmental
clamps cannot fire, i.e. `0.2 ≤ moisture ≤ 1`), age, maxAge and position. -/
lemma updateCloud_zero_dt_fields (humidity evap : ℚ) (c : Cloud)
    (h0 : 0.2 ≤ c.moisture) (h1 : c.moisture ≤ 1) :
    ((updateCloud humidity evap c 0).fst).moisture = c.moisture
    ∧ ((updateCloud humidity evap c 0).fst).age = c.age
    ∧ ((updateCloud humidity evap c 0).fst).maxAge = c.maxAge
    ∧ ((updateCloud humidity evap c 0).fst).posX = c.posX
    ∧ ((updateCloud humidity evap c 0).fst).posY = c.posY
    ∧ ((updateCloud humidity evap c 0).fst).posZ = c.posZ := by
  obtain ⟨hx, hy, hz⟩ := updateCloud_fst_pos humidity evap c 0
  refine ⟨?_, (updateCloud_fst_age humidity evap c 0).trans (add_zero _),
    updateCloud_fst_maxAge humidity evap c 0, hx, hy, hz⟩
  unfold updateCloud; dsimp only
  split_ifs <;>
    simp [min_eq_right h1, max_eq_right h0, min_eq_right, max_eq_right]

/-- C8 (amended): repeated `updateCloud` calls with dt = 0 change no
cloud's moisture, stage or position, provided the cloud's moisture lies in
`[0.2, 1]` (so the dt-independent environmental clamps cannot fire) and its
stored stage agrees with its life fraction. Without the moisture proviso a
zero-time step can change moisture; see the counterexample. -/
theorem updateCloud_zero_dt_noop (c : Cloud) (steps : List WeatherStep)
    (hdts : ∀ s ∈ steps, s.dt = 0)
    (h0 : 0.2 ≤ c.moisture) (h1 : c.moisture ≤ 1)
    (hst : c.stage = stageOf (c.age / c.maxAge)) :
    ∀ c' ∈ cloudStates c steps,
      c'.moisture = c.moisture ∧ c'.stage = c.stage ∧ c'.posX = c.posX
      ∧ c'.posY = c.posY ∧ c'.posZ = c.posZ := by
  induction steps generalizing c with
  | nil => intro c' hc'; simp [cloudStates] at hc'
  | cons s ss ih =>
      intro c' hc'
      have hs0 : s.dt = 0 := hdts s (List.mem_cons_self s ss)
      have hfields := updateCloud_zero_dt_fields s.humidity s.evaporationRate c h0 h1
      have hstage : ((updateCloud s.humidity s.evaporationRate c 0).fst).stage
          = c.stage := by
        rw [updateCloud_fst_stage, add_zero, ← hst]
      simp only [cloudStates, List.mem_cons] at hc'
      rw [hs0] at hc'
      rcases hc' with rfl | hc'
      · exact ⟨hfields.1, hstage, hfields.2.2.2.1, hfields.2.2.2.2.1,
          hfields.2.2.2.2.2⟩
      · have hnext := ih ((updateCloud s.humidity s.evaporationRate c 0).fst)
          (fun s' hs' => hdts s' (List.mem_cons_of_mem s hs'))
          (by rw [hfields.1]; exact h0) (by rw [hfields.1]; exact h1)
          (by rw [hstage, hfields.2.1, hfields.2.2.1]; exact hst) c' hc'
        exact ⟨hnext.1.trans hfields.1, hnext.2.1.trans hstage,
          hnext.2.2.1.trans hfields.2.2.2.1,
          hnext.2.2.2.1.trans hfields.2.2.2.2.1,
          hnext.2.2.2.2.trans hfields.2.2.2.2.2⟩

/-- Witness for C8's amended theorem: two zero-dt calls (one humid frame,
one dry frame) leave the concrete mature storm cloud's moisture, stage and
position untouched. -/
theorem updateCloud_zero_dt_noop_witness :
    ((updateCloud 30 1 ((updateCloud 80 1 matureStormCloud 0).fst) 0).fst).moisture
        = matureStormCloud.moisture
    ∧ ((updateCloud 30 1 ((updateCloud 80 1 matureStormCloud 0).fst) 0).fst).stage
        = matureStormCloud.stage := by
  have h := updateCloud_zero_dt_noop matureStormCloud [⟨0, 80, 1⟩, ⟨0, 30, 1⟩]
    (by intro s hs
        rcases List.mem_cons.mp hs with rfl | hs
        · rfl
        · rcases List.mem_cons.mp hs with rfl | hs
          · rfl
          · simp at hs)
    (by norm_num [matureStormCloud]) (by norm_num [matureStormCloud])
    (by norm_num [matureStormCloud, stageOf])
  have hmem := h ((updateCloud 30 1 ((updateCloud 80 1 matureStormCloud 0).fst)
      0).fst) (by simp [cloudStates])
  exact ⟨hmem.1, hmem.2.1⟩

/-- Counterexample to C8 as stated: `drainedStormCloud` is reachable from a
factory cloud by nonnegative-dt calls and has a stage consistent with its
life fraction, yet a dt = 0 call at ambient humidity 30 changes its
moisture (the `max(0.2, ...)` clamp fires even for a zero-time step). -/
theorem updateCloud_zero_dt_changes_moisture_cex :
    drainedStormCloud.stage = stageOf (drainedStormCloud.age / drainedStormCloud.maxAge)
    ∧ drainedStormCloud.moisture = -8/25
    ∧ ((updateCloud 30 1 drainedStormCloud 0).fst).moisture = 0.2
    ∧ ((updateCloud 30 1 drainedStormCloud 0).fst).moisture
        ≠ drainedStormCloud.moisture := by
  have e : drainedStormCloud =
      { posX := 0, posY := 15, posZ := 0, scaleX := 1/8, scaleY := 3/40,
        scaleZ := 1/8, speed := 1/50, rotationSpeed := 0, initialY := 15,
        floatSpeed := 3/10, age := 260, maxAge := 400, moisture := -8/25,
        growth := 1/2, stage := .mature, baseScale := 1,
        precipitating := true, canPrecipitate := true,
        precipitationThreshold := 3/5, type := .cumulonimbus,
        precipitationIntensity := 1 } := runCloud_overdriven_eq
  rw [e]
  norm_num [updateCloud, stageOf, max_def, min_def]

/-- One `updateCloud` call with nonnegative dt preserves the invariant
that a precipitating cloud's life fraction lies in the Mature window: the
Growing branch only keeps an older flag (impossible, since the life
fraction never decreases), the Mature gate sets the flag inside the
window, and the Dissipating branch clears it. -/
lemma updateCloud_precip_invariant (humidity evap dt : ℚ) (c : Cloud)
    (hmax : 0 < c.maxAge) (hdt : 0 ≤ dt)
    (hI : c.precipitating = true →
      0.2 ≤ c.age / c.maxAge ∧ c.age / c.maxAge < 0.7) :
    ((updateCloud humidity evap c dt).fst).precipitating = true →
      0.2 ≤ ((updateCloud humidity evap c dt).fst).age
              / ((updateCloud humidity evap c dt).fst).maxAge
      ∧ ((updateCloud humidity evap c dt).fst).age
          / ((updateCloud humidity evap c dt).fst).maxAge < 0.7 := by
  intro hp
  rw [updateCloud_fst_age, updateCloud_fst_maxAge]
  by_cases h1 : (c.age + dt) / c.maxAge < 0.2
  · exfalso
    have hpe := (updateCloud_growing_precip humidity evap c dt h1).1
    rw [hpe] at hp
    have hmono : c.age / c.maxAge ≤ (c.age + dt) / c.maxAge :=
      (div_le_div_iff_of_pos_right hmax).mpr (by linarith)
    have := (hI hp).1
    linarith
  · by_cases h2 : (c.age + dt) / c.maxAge < 0.7
    · exact ⟨not_lt.mp h1, h2⟩
    · exfalso
      have hpe := (updateCloud_dissipating_precip humidity evap c dt h2).1
      rw [hpe] at hp
      exact Bool.false_ne_true hp

/-- The invariant, the stage/life-fraction agreement and the positivity of
maxAge propagate through every state of a call sequence. -/
lemma cloudStates_precip_invariant (steps : List WeatherStep) :
    ∀ (c : Cloud), 0 < c.maxAge →
      (c.precipitating = true →
        0.2 ≤ c.age / c.maxAge ∧ c.age / c.maxAge < 0.7) →
      (∀ s ∈ steps, 0 ≤ s.dt) →
      ∀ c' ∈ cloudStates c steps,
        (c'.precipitating = true →
          0.2 ≤ c'.age / c'.maxAge ∧ c'.age / c'.maxAge < 0.7)
        ∧ c'.stage = stageOf (c'.age / c'.maxAge) := by
  induction steps with
  | nil => intro c _ _ _ c' hc'; simp [cloudStates] at hc'
  | cons s ss ih =>
      intro c hmax hI hdts c' hc'
      have hdt : 0 ≤ s.dt := hdts s (List.mem_cons_self s ss)
      have hmax' : 0 < ((updateCloud s.humidity s.evaporationRate c s.dt).fst).maxAge := by
        rw [updateCloud_fst_maxAge]; exact hmax
      have hI' := updateCloud_precip_invariant s.humidity s.evaporationRate s.dt c
        hmax hdt hI
      simp only [cloudStates, List.mem_cons] at hc'
      rcases hc' with rfl | hc'
      · refine ⟨hI', ?_⟩
        rw [updateCloud_fst_stage, updateCloud_fst_age, updateCloud_fst_maxAge]
      · exact ih _ hmax' hI'
          (fun s' hs' => hdts s' (List.mem_cons_of_mem s hs')) c' hc'

/-- C10: a factory-created cloud, run through any sequence of `updateCloud`
calls with nonnegative dt, is precipitating only while in the Mature
window: after every call, `precipitating = true` implies
`0.2 ≤ lifeRatio < 0.7` and the stored stage is Mature. -/
theorem factory_cloud_precipitates_only_mature (humidity0 : ℚ)
    (rnd : CloudRandoms) (hr : 0 ≤ rnd.maxAgeRand)
    (steps : List WeatherStep) (hsteps : ∀ s ∈ steps, 0 ≤ s.dt) :
    ∀ c' ∈ cloudStates (createCloud humidity0 rnd) steps,
      c'.precipitating = true →
        0.2 ≤ c'.age / c'.maxAge ∧ c'.age / c'.maxAge < 0.7
        ∧ c'.stage = CloudStage.mature := by
  have hmax : 0 < (createCloud humidity0 rnd).maxAge := by
    have : (createCloud humidity0 rnd).maxAge = 300 + rnd.maxAgeRand * 200 := rfl
    rw [this]
    nlinarith
  have hbase : (createCloud humidity0 rnd).precipitating = true →
      0.2 ≤ (createCloud humidity0 rnd).age / (createCloud humidity0 rnd).maxAge
      ∧ (createCloud humidity0 rnd).age / (createCloud humidity0 rnd).maxAge < 0.7 := by
    intro hcontra
    exact absurd hcontra (by simp [createCloud])
  intro c' hc' hp
  obtain ⟨hwin, hstage⟩ :=
    cloudStates_precip_invariant steps (createCloud humidity0 rnd) hmax hbase
      hsteps c' hc'
  obtain ⟨hlo, hhi⟩ := hwin hp
  refine ⟨hlo, hhi, ?_⟩
  rw [hstage]
  unfold stageOf
  rw [if_neg (not_lt.mpr hlo), if_pos hhi]

/-- Witness for C10: the newborn storm cloud after one Mature-window call
(dt = 100 at humidity 65), where it is indeed precipitating and the
conclusion's bounds hold. -/
theorem factory_cloud_precipitates_only_mature_witness :
    0.2 ≤ ((updateCloud 65 1 newbornStormCloud 100).fst).age
            / ((updateCloud 65 1 newbornStormCloud 100).fst).maxAge
    ∧ ((updateCloud 65 1 newbornStormCloud 100).fst).age
        / ((updateCloud 65 1 newbornStormCloud 100).fst).maxAge < 0.7
    ∧ ((updateCloud 65 1 newbornStormCloud 100).fst).stage
        = CloudStage.mature := by
  have h := factory_cloud_precipitates_only_mature 80 stormRandoms
    (by norm_num [stormRandoms]) [⟨100, 65, 1⟩]
    (by intro s hs
        rcases List.mem_cons.mp hs with rfl | hs
        · norm_num
        · simp at hs)
  have hmem := h ((updateCloud 65 1 (createCloud 80 stormRandoms) 100).fst)
    (by simp [cloudStates])
  exact hmem (by
    norm_num [newbornStormCloud, createCloud, stormRandoms, determineCloudType,
      updateCloud, min_def, max_def])
